import Mathlib

/-!
Verification of the PayanaOverseas conversation-session engine
(`src/backend/server.ts`, first/canonical variant, lines 1-1576).

The TypeScript source is shallowly embedded: the per-user Mongo document
becomes the structure `IUser`; the giant `switch (step)` of
`processConversationStep` becomes a pure function from the user snapshot and
the raw input to the updated user plus an ordered list of `Directive`s (the
side effects the handler issues: bot messages, option menus, processing
status events, scheduled e-mail jobs, scheduled summary jobs).  E-mail
sending and the conversation summary run inside `setTimeout` callbacks in the
source; they are embedded as separate callback functions so that the
interleaving of a second user input before a pending e-mail job resolves can
be stated exactly.  Wall-clock data (`timestamp`, `lastActivity`, `joinedAt`,
message ids) and the `delayMs` arguments of `setTimeout` are dropped: no
claim depends on them, only on the order in which effects are issued.
-/

namespace Payana

/-- `sender` field of a stored message (`'user' | 'bot'`). -/
inductive Sender where
  | user
  | bot
deriving DecidableEq, Repr

/-- `messageType` field of a stored message (`'text' | 'options' | 'summary'`). -/
inductive MsgKind where
  | text
  | options
  | summary
deriving DecidableEq, Repr

/-- A stored message (`IUserMessage` without the impure `id`/`timestamp`). -/
structure Msg where
  text : String
  sender : Sender
  kind : MsgKind
deriving DecidableEq, Repr

/-- A chat option offered to the client (`ChatOption`; `icon`/`className` are
presentational and dropped). -/
structure ChatOption where
  text : String
  value : String
deriving DecidableEq, Repr

/-- Which notification e-mail a scheduled job sends (`sendGermanProgramEmail`,
`sendUGProgramEmail`, `sendStudyProgramEmail`). -/
inductive EmailKind where
  | german
  | ug
  | study
deriving DecidableEq, Repr

/-- The user document of the `users` collection (`IUser`), minus the impure
timestamp fields.  `resume` is `string | null` in the source. -/
structure IUser where
  socketId : String
  conversationId : String
  name : String
  age : String
  email : String
  purpose : String
  passport : String
  resume : Option String
  qualification : String
  ugMajor : String
  workExperience : String
  experienceYears : String
  germanLanguageUG : String
  examReadiness : String
  ugEmailSent : Bool
  ugProgramContinue : String
  ugProgramStartTime : String
  experience : String
  interestedInCategories : String
  germanLanguage : String
  continueProgram : String
  programStartTime : String
  entryYear : String
  appointmentType : String
  appointmentTime : String
  appointmentDate : String
  appointmentConfirmed : Bool
  emailSent : Bool
  isProcessingEmail : Bool
  needsFinancialSetup : Bool
  financialJobSupport : String
  currentFlow : String
  isProcessingUGEmail : Bool
  step : Nat
  studyCountry : String
  studyLevel : String
  studyField : String
  studyBudget : String
  studyStartTime : String
  studyDuration : String
  studyEmailSent : Bool
  studyProgramContinue : String
  messages : List Msg
  status : String
deriving DecidableEq, Repr

/-- The document `getOrCreateUser` inserts when no record matches
`(socketId, conversationId)`: every field at its schema default. -/
def freshUser (sockId convId : String) : IUser where
  socketId := sockId
  conversationId := convId
  name := ""
  age := ""
  email := ""
  purpose := ""
  passport := ""
  resume := none
  qualification := ""
  ugMajor := ""
  workExperience := ""
  experienceYears := ""
  germanLanguageUG := ""
  examReadiness := ""
  ugEmailSent := false
  ugProgramContinue := ""
  ugProgramStartTime := ""
  experience := ""
  interestedInCategories := ""
  germanLanguage := ""
  continueProgram := ""
  programStartTime := ""
  entryYear := ""
  appointmentType := ""
  appointmentTime := ""
  appointmentDate := ""
  appointmentConfirmed := false
  emailSent := false
  isProcessingEmail := false
  needsFinancialSetup := false
  financialJobSupport := ""
  currentFlow := ""
  isProcessingUGEmail := false
  step := 0
  studyCountry := ""
  studyLevel := ""
  studyField := ""
  studyBudget := ""
  studyStartTime := ""
  studyDuration := ""
  studyEmailSent := false
  studyProgramContinue := ""
  messages := []
  status := "active"

/-! ### Validators (`validateName`, `validateAge`, `validateEmail`) -/

/-- JavaScript whitespace as matched by `\s` / trimmed by `String.trim`
(restricted to the ASCII whitespace characters). -/
def isJsWs (c : Char) : Bool :=
  c = ' ' || c = '\t' || c = '\n' || c = '\r' || c = '\x0b' || c = '\x0c'

def isAsciiDigit (c : Char) : Bool := '0' ≤ c && c ≤ '9'

def isAsciiLetter (c : Char) : Bool :=
  ('a' ≤ c && c ≤ 'z') || ('A' ≤ c && c ≤ 'Z')

/-- `name.trim()`: strip leading and trailing whitespace. -/
def jsTrim (s : String) : List Char :=
  ((s.data.dropWhile isJsWs).reverse.dropWhile isJsWs).reverse

/-- `validateName`: `/^[a-zA-Z\s]+$/.test(name.trim()) && name.trim().length >= 2`. -/
def validateName (s : String) : Bool :=
  let t := jsTrim s
  (!t.isEmpty) && t.all (fun c => isAsciiLetter c || isJsWs c) && decide (2 ≤ t.length)

def digitVal (c : Char) : Nat := c.toNat - '0'.toNat

def isHexDigit (c : Char) : Bool :=
  isAsciiDigit c || ('a' ≤ c && c ≤ 'f') || ('A' ≤ c && c ≤ 'F')

def hexVal (c : Char) : Nat :=
  if isAsciiDigit c then digitVal c
  else if 'a' ≤ c && c ≤ 'f' then c.toNat - 'a'.toNat + 10
  else c.toNat - 'A'.toNat + 10

/-- Accumulate the value of a digit list in the given radix. -/
def digitsValue (radix : Nat) (val : Char → Nat) : List Char → Nat → Nat
  | [], acc => acc
  | c :: cs, acc => digitsValue radix val cs (acc * radix + val c)

/-- Strip one optional leading sign: `(negative, rest)`. -/
def signSplit : List Char → Bool × List Char
  | [] => (false, [])
  | c :: t =>
      if c = '-' then (true, t)
      else if c = '+' then (false, t)
      else (false, c :: t)

/-- Whether the characters start with the `0x`/`0X` hex prefix. -/
def hexPrefix : List Char → Bool
  | a :: c :: _ => a == '0' && (c == 'x' || c == 'X')
  | _ => false

/-- JavaScript `parseInt(s)` with no radix argument: skip leading whitespace,
read an optional sign, switch to base 16 after a `0x`/`0X` prefix, then take
the longest run of digits of the radix; `none` is `NaN` (no digits). -/
def jsParseInt (s : String) : Option Int :=
  let l := s.data.dropWhile isJsWs
  let sg := signSplit l
  let body := if hexPrefix sg.2 then sg.2.drop 2 else sg.2
  let ds := body.takeWhile (if hexPrefix sg.2 then isHexDigit else isAsciiDigit)
  if ds.isEmpty then none
  else
    let v : Int := Int.ofNat
      (digitsValue (if hexPrefix sg.2 then 16 else 10)
        (if hexPrefix sg.2 then hexVal else digitVal) ds 0)
    some (if sg.1 then -v else v)

/-- `validateAge`: `const numAge = parseInt(age); !isNaN(numAge) && numAge >= 16 && numAge <= 65`. -/
def validateAge (s : String) : Bool :=
  match jsParseInt s with
  | none => false
  | some n => decide (16 ≤ n ∧ n ≤ 65)

/-- Split a list at the first occurrence of `c`: `some (before, after)`. -/
def splitFirst (c : Char) : List Char → Option (List Char × List Char)
  | [] => none
  | x :: xs =>
      if x = c then some ([], xs)
      else (splitFirst c xs).map (fun p => (x :: p.1, p.2))

/-- A character of the classes `[^\s@]` of the e-mail regex. -/
def emailChar (c : Char) : Bool := !isJsWs c && !(c = '@')

/-- `validateEmail`: `/^[^\s@]+@[^\s@]+\.[^\s@]+$/.test(email)`.  A match
exists iff the string is `local@rest` with `local` nonempty, a single `@`,
no whitespace anywhere, and `rest` containing a `.` that has at least one
character before and after it. -/
def validateEmail (s : String) : Bool :=
  match splitFirst '@' s.data with
  | none => false
  | some (loc, rest) =>
      (!loc.isEmpty) && loc.all emailChar && rest.all emailChar &&
        ((rest.dropLast.drop 1).contains '.')

/-- The ASCII uppercase letters paired with their lowercase forms. -/
def lowerTable : List (Char × Char) :=
  [('A', 'a'), ('B', 'b'), ('C', 'c'), ('D', 'd'), ('E', 'e'), ('F', 'f'),
   ('G', 'g'), ('H', 'h'), ('I', 'i'), ('J', 'j'), ('K', 'k'), ('L', 'l'),
   ('M', 'm'), ('N', 'n'), ('O', 'o'), ('P', 'p'), ('Q', 'q'), ('R', 'r'),
   ('S', 's'), ('T', 't'), ('U', 'u'), ('V', 'v'), ('W', 'w'), ('X', 'x'),
   ('Y', 'y'), ('Z', 'z')]

/-- Lowercase one character (ASCII model of JS `toLowerCase`, which the
source applies to e-mail addresses). -/
def jsLowerChar (c : Char) : Char :=
  match lowerTable.find? (fun p => p.1 == c) with
  | some p => p.2
  | none => c

/-- ASCII model of JavaScript `String.prototype.toLowerCase`. -/
def jsToLower (s : String) : String :=
  ⟨s.data.map jsLowerChar⟩

/-- `c` is an ASCII uppercase letter. -/
def isAsciiUpper (c : Char) : Bool := decide (c ∈ lowerTable.map Prod.fst)

/-- `response.trim()` as a string. -/
def jsTrimS (s : String) : String := ⟨jsTrim s⟩

/-! ### The flow engine: `processConversationStep`

Each `case` of the `switch (step)` becomes one branch of an equality chain on
`u.step` (a `switch` on a number is exactly such a chain).  A branch returns
the updated user (the accumulated `updateUser` payload applied to the
snapshot) and the list of side-effect directives in the order the source
issues them.  The e-mail `setTimeout` callbacks of cases 10, 25 and 56 are
the separate functions `germanEmailResolve`, `ugEmailResolve` and
`studyEmailResolve`: they run only when the scheduled `emailJob` directive is
dispatched and its notifier call resolves. -/

inductive Directive where
  | botMessage (text : String)
  | showOptions (options : List ChatOption)
  | processingStatus (isProcessing : Bool) (message : String)
  | triggerFileUpload
  | emailJob (kind : EmailKind)
  | summaryJob (snapshot : IUser)
deriving DecidableEq, Repr

def yesNoOptions : List ChatOption :=
  [⟨"✅ Yes", "Yes"⟩, ⟨"❌ No", "No"⟩]

def studyWorkOptions : List ChatOption :=
  [⟨"📚 Study", "Study"⟩, ⟨"💼 Work", "Work"⟩]

def qualificationOptions : List ChatOption :=
  [⟨"🎓 12th Completed", "12th Completed"⟩, ⟨"🎓 UG Completed", "UG Completed"⟩,
   ⟨"🎓 PG Completed", "PG Completed"⟩]

def journeyOptions : List ChatOption :=
  [⟨"✅ Yes", "Yes"⟩, ⟨"📘 Claim Free Passport", "Claim Free Passport"⟩,
   ⟨"📝 Register Now", "Register Now"⟩]

def resumeOptions : List ChatOption :=
  [⟨"📄 Upload Resume", "Upload Resume"⟩, ⟨"🚫 No Resume", "No Resume"⟩]

def experienceOptions : List ChatOption :=
  [⟨"🆕 No Experience", "No experience"⟩, ⟨"📈 1-2 Years", "1-2yr"⟩,
   ⟨"📊 2-3 Years", "2-3yr"⟩, ⟨"📈 3-5 Years", "3-5yr"⟩, ⟨"🏆 5+ Years", "5+yr"⟩]

def ugMajorOptions : List ChatOption :=
  [⟨"👩‍⚕️ Nurses", "Nurses"⟩, ⟨"🦷 Dentist", "Dentist"⟩, ⟨"⚙️ Engineering", "Engineering"⟩,
   ⟨"🎨 Arts Background", "Arts Background"⟩, ⟨"🩺 MBBS", "MBBS"⟩]

def kickStartOptions : List ChatOption :=
  [⟨"⚡ Immediately", "Immediately"⟩, ⟨"⏳ Need Time", "Need some time"⟩,
   ⟨"❓ Need Clarification", "Need more clarification"⟩]

def ugYearsOptions : List ChatOption :=
  [⟨"📈 1-2 Years", "1-2yr"⟩, ⟨"📊 2-3 Years", "2-3yr"⟩,
   ⟨"📈 3-5 Years", "3-5yr"⟩, ⟨"🏆 5+ Years", "5+yr"⟩]

def studyCountryOptions : List ChatOption :=
  [⟨"🇺🇸 USA", "USA"⟩, ⟨"🇬🇧 UK", "UK"⟩, ⟨"🇨🇦 Canada", "Canada"⟩,
   ⟨"🇦🇺 Australia", "Australia"⟩, ⟨"🇩🇪 Germany", "Germany"⟩, ⟨"🌍 Other", "Other"⟩]

def studyLevelOptions : List ChatOption :=
  [⟨"🎓 Bachelor's Degree", "Bachelor's"⟩, ⟨"🎓 Master's Degree", "Master's"⟩,
   ⟨"🎓 PhD", "PhD"⟩, ⟨"📜 Diploma/Certificate", "Diploma"⟩,
   ⟨"🌐 Language Course", "Language"⟩]

def studyFieldOptions : List ChatOption :=
  [⟨"💻 Engineering & Technology", "Engineering"⟩, ⟨"💼 Business & Management", "Business"⟩,
   ⟨"⚕️ Medicine & Health", "Medicine"⟩, ⟨"🎨 Arts & Design", "Arts"⟩,
   ⟨"🔬 Science & Research", "Science"⟩, ⟨"📚 Other", "Other"⟩]

def studyBudgetOptions : List ChatOption :=
  [⟨"💰 Under $20,000", "Under $20k"⟩, ⟨"💰 $20,000 - $50,000", "$20k-$50k"⟩,
   ⟨"💰 $50,000 - $100,000", "$50k-$100k"⟩, ⟨"💰 Above $100,000", "Above $100k"⟩,
   ⟨"❓ Not Sure", "Not Sure"⟩]

def studyStartOptions : List ChatOption :=
  [⟨"🚀 Next Semester", "Next Semester"⟩, ⟨"📅 Next Academic Year", "Next Year"⟩,
   ⟨"⏳ In 2 Years", "In 2 Years"⟩, ⟨"🤔 Still Deciding", "Still Deciding"⟩]

def studyDurationOptions : List ChatOption :=
  [⟨"📅 6 months - 1 year", "6m-1y"⟩, ⟨"📅 1-2 years", "1-2y"⟩,
   ⟨"📅 2-4 years", "2-4y"⟩, ⟨"📅 4+ years", "4+y"⟩]

def studyContinueOptions : List ChatOption :=
  [⟨"✅ Yes, I'm Interested", "Yes"⟩, ⟨"❌ Need More Information", "No"⟩]

/-- `const qualifications = [...]` of case 7. -/
def qualificationValues : List String := ["12th Completed", "UG Completed", "PG Completed"]

/-- `const experiences = [...]` of case 8. -/
def experienceValues : List String := ["No experience", "1-2yr", "2-3yr", "3-5yr", "5+yr"]

/-- `const ugMajors = [...]` of case 22. -/
def ugMajorValues : List String := ["Nurses", "Dentist", "Engineering", "Arts Background", "MBBS"]

/-- `const experienceYears = [...]` of case 24. -/
def experienceYearsValues : List String := ["1-2yr", "2-3yr", "3-5yr", "5+yr"]

/-- `const studyQualifications = [...]` of case 50. -/
def studyQualificationValues : List String := ["12th Completed", "UG Completed", "PG Completed"]

/-- `const studyCountries = [...]` of case 51. -/
def studyCountryValues : List String := ["USA", "UK", "Canada", "Australia", "Germany", "Other"]

/-- `const studyLevels = [...]` of case 52. -/
def studyLevelValues : List String := ["Bachelor's", "Master's", "PhD", "Diploma", "Language"]

/-- `const studyFields = [...]` of case 53. -/
def studyFieldValues : List String := ["Engineering", "Business", "Medicine", "Arts", "Science", "Other"]

/-- `const studyBudgets = [...]` of case 54. -/
def studyBudgetValues : List String := ["Under $20k", "$20k-$50k", "$50k-$100k", "Above $100k", "Not Sure"]

/-- `const studyStartTimes = [...]` of case 55. -/
def studyStartTimeValues : List String := ["Next Semester", "Next Year", "In 2 Years", "Still Deciding"]

/-- `const studyDurations = [...]` of case 56. -/
def studyDurationValues : List String := ["6m-1y", "1-2y", "2-4y", "4+y"]

/-- The German-language question of cases 23/24: the Dentist major gets the
extra FSP/KP exam-readiness clause. -/
def germanQuestionUG (ugMajor : String) : String :=
  if ugMajor = "Dentist" then
    "Are you willing to learn German language and ready to clear FSP and KP exams?"
  else
    "Are you willing to learn German language?"

/-- `response.toLowerCase().replace(' ', '_')` of case 22 (JS `replace` with a
string pattern replaces the first occurrence only). -/
def replaceFirstSpace : List Char → List Char
  | [] => []
  | c :: cs => if c = ' ' then '_' :: cs else c :: replaceFirstSpace cs

def ugFlowName (r : String) : String :=
  "ug_" ++ (⟨replaceFirstSpace (jsToLower r).data⟩ : String)

def emailSuccessText : String :=
  "✅ Great! Your details have been sent to our team. You'll receive a confirmation email shortly!"

def emailFailureText : String :=
  "⚠️ There was an issue sending your details, but don't worry - our team has your information and will contact you soon!"

/-- The `setTimeout` body of case 10 after `sendGermanProgramEmail` resolves
with `ok`, applied to the then-current stored user. -/
def germanEmailResolve (ok : Bool) (u : IUser) : IUser × List Directive :=
  ({ u with step := 11, emailSent := ok, isProcessingEmail := false },
   [.processingStatus false "",
    .botMessage (if ok then emailSuccessText else emailFailureText),
    .botMessage "Can you continue with this program?",
    .showOptions yesNoOptions])

/-- The `setTimeout` body of case 25 after `sendUGProgramEmail` resolves. -/
def ugEmailResolve (ok : Bool) (u : IUser) : IUser × List Directive :=
  ({ u with step := 27, ugEmailSent := ok, isProcessingUGEmail := false },
   [.processingStatus false "",
    .botMessage (if ok then emailSuccessText else emailFailureText),
    .botMessage "Please kindly check your mail. Can you continue with this program?",
    .showOptions yesNoOptions])

/-- The `setTimeout` body of case 56 after `sendStudyProgramEmail` resolves. -/
def studyEmailResolve (ok : Bool) (u : IUser) : IUser × List Directive :=
  ({ u with step := 58, studyEmailSent := ok },
   [.processingStatus false "",
    .botMessage (if ok then
      "✅ Perfect! Your study abroad details have been sent to our team. You'll receive a confirmation email shortly!"
      else emailFailureText),
    .botMessage "Would you like to proceed with our study abroad program?",
    .showOptions studyContinueOptions])

/-- Case 0: initial greeting; any input starts the flow. -/
def step0Handler (u : IUser) (_r : String) : IUser × List Directive :=
  ({ u with step := 1 },
   [.botMessage "Great! Let's get started. Please enter your full name:"])

/-- Case 1: name input. -/
def step1Handler (u : IUser) (r : String) : IUser × List Directive :=
  if validateName r then
    ({ u with step := 2, name := jsTrimS r },
     [.botMessage ("Thanks " ++ jsTrimS r ++ "! What's your age?")])
  else
    (u, [.botMessage "Please enter a valid name (at least 2 letters, letters and spaces only)"])

/-- Case 2: age input. -/
def step2Handler (u : IUser) (r : String) : IUser × List Directive :=
  if validateAge r then
    ({ u with step := 3, age := r },
     [.botMessage "Please share your email address:"])
  else
    (u, [.botMessage "Please enter a valid age (between 16-65 years)"])

/-- Case 3: e-mail input (stored lowercased). -/
def step3Handler (u : IUser) (r : String) : IUser × List Directive :=
  if validateEmail r then
    ({ u with step := 4, email := jsToLower r },
     [.botMessage "Are you looking to Study or Work abroad?", .showOptions studyWorkOptions])
  else
    (u, [.botMessage "Please enter a valid email address (e.g., example@gmail.com)"])

/-- Case 4: purpose selection, forking into the study or work branch. -/
def step4Handler (u : IUser) (r : String) : IUser × List Directive :=
  if r = "Study" then
    ({ u with step := 50, purpose := r, currentFlow := "study" },
     [.botMessage "Excellent choice! What is your highest qualification?",
      .showOptions qualificationOptions])
  else if r = "Work" then
    ({ u with step := 5, purpose := r, currentFlow := "work" },
     [.botMessage "Do you have a valid passport?", .showOptions yesNoOptions])
  else
    (u, [.botMessage "Please select either Study or Work"])

/-- Case 5: passport question (work flow). -/
def step5Handler (u : IUser) (r : String) : IUser × List Directive :=
  if r = "Yes" ∨ r = "No" then
    ({ u with
        passport := r,
        step := (if r = "No" then 19 else 6),
        needsFinancialSetup := (r == "No") },
     if r = "No" then
       [.botMessage "You have some time to make financial setups. Now you have to start learning German language now.",
        .botMessage "Ready to start your journey?",
        .showOptions journeyOptions]
     else
       [.botMessage "Do you have a resume to upload?", .showOptions resumeOptions])
  else
    (u, [.botMessage "Please select either Yes or No"])

/-- Case 6: resume handling (work flow).  Note there is no `else` branch: an
input that is neither option is ignored without a re-prompt. -/
def step6Handler (u : IUser) (r : String) : IUser × List Directive :=
  if r = "Upload Resume" then
    (u, [.triggerFileUpload])
  else if r = "No Resume" then
    ({ u with resume := some "No resume", step := 7 },
     [.botMessage "What is your highest qualification?", .showOptions qualificationOptions])
  else
    (u, [])

/-- Case 7: qualification (work flow); "UG Completed" forks to the UG-major
sub-flow at step 22, the rest continue at step 8. -/
def step7Handler (u : IUser) (r : String) : IUser × List Directive :=
  if r ∈ qualificationValues then
    ({ u with
        qualification := r,
        step := (if r = "UG Completed" then 22 else 8),
        currentFlow := (if r = "UG Completed" then "ug_selection" else "standard") },
     if r = "UG Completed" then
       [.botMessage "What is your UG major?", .showOptions ugMajorOptions]
     else
       [.botMessage "How many years of work experience do you have?",
        .showOptions experienceOptions])
  else
    (u, [.botMessage "Please select a qualification from the options"])

/-- Case 8: work experience (standard work flow). -/
def step8Handler (u : IUser) (r : String) : IUser × List Directive :=
  if r ∈ experienceValues then
    ({ u with step := 9, experience := r },
     [.botMessage "Are you interested in any of these categories?", .showOptions yesNoOptions])
  else
    (u, [.botMessage "Please select an experience level"])

/-- Case 9: interested in categories (work flow). -/
def step9Handler (u : IUser) (r : String) : IUser × List Directive :=
  if r = "Yes" ∨ r = "No" then
    ({ u with step := 10, interestedInCategories := r },
     [.botMessage "Are you ready to learn the German language?", .showOptions yesNoOptions])
  else
    (u, [.botMessage "Please select either Yes or No"])

/-- Case 10: German-language checkpoint (work flow).  The handler stores the
answer, raises `isProcessingEmail` and schedules the e-mail job; the step is
advanced only by `germanEmailResolve` when the job's notifier call resolves.
Neither `emailSent` nor `isProcessingEmail` is consulted before scheduling. -/
def step10Handler (u : IUser) (r : String) : IUser × List Directive :=
  if r = "Yes" ∨ r = "No" then
    ({ u with germanLanguage := r, isProcessingEmail := true },
     [.processingStatus true "📧 Sending your German Program details to our team...",
      .emailJob .german])
  else
    (u, [.botMessage "Please select either Yes or No"])

/-- Case 11: continue program (work flow). -/
def step11Handler (u : IUser) (r : String) : IUser × List Directive :=
  if r = "Yes" ∨ r = "No" then
    ({ u with continueProgram := r, step := (if r = "Yes" then 12 else 21) },
     if r = "Yes" then
       [.botMessage "When can you kick start your program?", .showOptions kickStartOptions]
     else
       [.botMessage "No problem! Our team will still contact you to discuss other opportunities that might interest you.",
        .summaryJob u])
  else
    (u, [.botMessage "Please select either Yes or No"])

/-- Case 22: UG major selection. -/
def step22Handler (u : IUser) (r : String) : IUser × List Directive :=
  if r ∈ ugMajorValues then
    ({ u with ugMajor := r, step := 23, currentFlow := ugFlowName r },
     [.botMessage "Do you have any work experience?", .showOptions yesNoOptions])
  else
    (u, [.botMessage "Please select a UG major from the options"])

/-- Case 23: work experience for UG majors. -/
def step23Handler (u : IUser) (r : String) : IUser × List Directive :=
  if r = "Yes" ∨ r = "No" then
    ({ u with workExperience := r, step := (if r = "Yes" then 24 else 25) },
     if r = "Yes" then
       [.botMessage "How many years of experience?", .showOptions ugYearsOptions]
     else
       [.botMessage (germanQuestionUG u.ugMajor), .showOptions yesNoOptions])
  else
    (u, [.botMessage "Please select either Yes or No"])

/-- Case 24: experience years for UG majors. -/
def step24Handler (u : IUser) (r : String) : IUser × List Directive :=
  if r ∈ experienceYearsValues then
    ({ u with experienceYears := r, step := 25 },
     [.botMessage (germanQuestionUG u.ugMajor), .showOptions yesNoOptions])
  else
    (u, [.botMessage "Please select an experience level"])

/-- Case 25: German language and exam readiness checkpoint (UG flow).  Unlike
case 10 this first update already moves the step (26 on Yes, 29 on No); the
e-mail job's resolution then sets step 27. -/
def step25Handler (u : IUser) (r : String) : IUser × List Directive :=
  if r = "Yes" ∨ r = "No" then
    ({ u with
        germanLanguageUG := r,
        examReadiness := r,
        step := (if r = "Yes" then 26 else 29),
        isProcessingUGEmail := (r == "Yes") },
     if r = "Yes" then
       [.processingStatus true "📧 Sending your UG Program details to our team...",
        .emailJob .ug]
     else
       [.botMessage "No problem! Please enter your email correctly and we'll send you alternative opportunities.",
        .summaryJob u])
  else
    (u, [.botMessage "Please select either Yes or No"])

/-- Case 27: continue with UG program. -/
def step27Handler (u : IUser) (r : String) : IUser × List Directive :=
  if r = "Yes" ∨ r = "No" then
    ({ u with ugProgramContinue := r, step := (if r = "Yes" then 28 else 29) },
     if r = "Yes" then
       [.botMessage "When can you kick start your program?", .showOptions kickStartOptions]
     else
       [.botMessage "No problem! Our team will still contact you to discuss other opportunities that might interest you.",
        .summaryJob u])
  else
    (u, [.botMessage "Please select either Yes or No"])

/-- Case 50: study qualification selection. -/
def step50Handler (u : IUser) (r : String) : IUser × List Directive :=
  if r ∈ studyQualificationValues then
    ({ u with qualification := r, step := 51 },
     [.botMessage "Perfect! Which country would you like to study in?",
      .showOptions studyCountryOptions])
  else
    (u, [.botMessage "Please select a qualification from the options"])

/-- Case 51: study country selection. -/
def step51Handler (u : IUser) (r : String) : IUser × List Directive :=
  if r ∈ studyCountryValues then
    ({ u with studyCountry := r, step := 52 },
     [.botMessage "Great choice! What level of study are you interested in?",
      .showOptions studyLevelOptions])
  else
    (u, [.botMessage "Please select a country from the options"])

/-- Case 52: study level selection. -/
def step52Handler (u : IUser) (r : String) : IUser × List Directive :=
  if r ∈ studyLevelValues then
    ({ u with studyLevel := r, step := 53 },
     [.botMessage "Excellent! What field would you like to study?",
      .showOptions studyFieldOptions])
  else
    (u, [.botMessage "Please select a study level from the options"])

/-- Case 53: study field selection. -/
def step53Handler (u : IUser) (r : String) : IUser × List Directive :=
  if r ∈ studyFieldValues then
    ({ u with studyField := r, step := 54 },
     [.botMessage "What's your budget range for studying abroad?",
      .showOptions studyBudgetOptions])
  else
    (u, [.botMessage "Please select a field of study from the options"])

/-- Case 54: study budget selection. -/
def step54Handler (u : IUser) (r : String) : IUser × List Directive :=
  if r ∈ studyBudgetValues then
    ({ u with studyBudget := r, step := 55 },
     [.botMessage "When would you like to start your studies?",
      .showOptions studyStartOptions])
  else
    (u, [.botMessage "Please select a budget range from the options"])

/-- Case 55: study start time selection. -/
def step55Handler (u : IUser) (r : String) : IUser × List Directive :=
  if r ∈ studyStartTimeValues then
    ({ u with studyStartTime := r, step := 56 },
     [.botMessage "How long do you want to study?", .showOptions studyDurationOptions])
  else
    (u, [.botMessage "Please select a start time from the options"])

/-- Case 56: study duration selection and the study e-mail checkpoint; the
step moves to 57 now, `studyEmailResolve` later sets it to 58. -/
def step56Handler (u : IUser) (r : String) : IUser × List Directive :=
  if r ∈ studyDurationValues then
    ({ u with studyDuration := r, step := 57 },
     [.processingStatus true "📧 Sending your Study Program details to our team...",
      .emailJob .study])
  else
    (u, [.botMessage "Please select a duration from the options"])

/-- Case 58: study program continuation; both answers schedule the summary. -/
def step58Handler (u : IUser) (r : String) : IUser × List Directive :=
  if r = "Yes" ∨ r = "No" then
    ({ u with studyProgramContinue := r, step := 59 },
     if r = "Yes" then
       [.botMessage "Fantastic! Our study abroad counselors will contact you within 24 hours to discuss your options and next steps.",
        .summaryJob u]
     else
       [.botMessage "No problem! Our team will send you detailed information about our study programs. Feel free to contact us when you're ready.",
        .summaryJob u])
  else
    (u, [.botMessage "Please select either Yes or No"])

/-- The `default` case: closing message plus summary, with no guard. -/
def defaultHandler (u : IUser) (_r : String) : IUser × List Directive :=
  (u, [.botMessage "Thank you for your interest in PayanaOverseas! Our team will contact you soon.",
       .summaryJob u])

/-- The synchronous part of `processConversationStep`: dispatch on `u.step`
(a `switch` on a number is an equality chain) to the case handlers above. -/
def processConversationStep (u : IUser) (r : String) : IUser × List Directive :=
  if u.step = 0 then step0Handler u r
  else if u.step = 1 then step1Handler u r
  else if u.step = 2 then step2Handler u r
  else if u.step = 3 then step3Handler u r
  else if u.step = 4 then step4Handler u r
  else if u.step = 5 then step5Handler u r
  else if u.step = 6 then step6Handler u r
  else if u.step = 7 then step7Handler u r
  else if u.step = 8 then step8Handler u r
  else if u.step = 9 then step9Handler u r
  else if u.step = 10 then step10Handler u r
  else if u.step = 11 then step11Handler u r
  else if u.step = 22 then step22Handler u r
  else if u.step = 23 then step23Handler u r
  else if u.step = 24 then step24Handler u r
  else if u.step = 25 then step25Handler u r
  else if u.step = 27 then step27Handler u r
  else if u.step = 50 then step50Handler u r
  else if u.step = 51 then step51Handler u r
  else if u.step = 52 then step52Handler u r
  else if u.step = 53 then step53Handler u r
  else if u.step = 54 then step54Handler u r
  else if u.step = 55 then step55Handler u r
  else if u.step = 56 then step56Handler u r
  else if u.step = 58 then step58Handler u r
  else defaultHandler u r

/-! ### The session store and the socket handlers

The `users` collection is a list of user documents; Mongo's
`findOne`/`findOneAndUpdate` on the `(socketId, conversationId)` filter
become `findUser`/`updateFirstUser`. -/

/-- The `{ socketId, conversationId }` Mongo filter. -/
def matchesKeys (sockId convId : String) (u : IUser) : Bool :=
  u.socketId == sockId && u.conversationId == convId

/-- `User.findOne({ socketId, conversationId })`. -/
def findUser (store : List IUser) (sockId convId : String) : Option IUser :=
  store.find? (matchesKeys sockId convId)

/-- `getOrCreateUser`: fetch the record for `(socketId, conversationId)` or
insert a fresh one at step 0.  Note the lookup is keyed by the *pair*, not by
the conversation id alone. -/
def getOrCreateUser (store : List IUser) (convId sockId : String) :
    List IUser × IUser :=
  match findUser store sockId convId with
  | some u => (store, u)
  | none => (store ++ [freshUser sockId convId], freshUser sockId convId)

/-- `User.findOneAndUpdate({ socketId, conversationId }, ...)`: rewrite the
first matching record in place; no record is ever removed. -/
def updateFirstUser (sockId convId : String) (f : IUser → IUser) :
    List IUser → List IUser
  | [] => []
  | u :: rest =>
      if matchesKeys sockId convId u then f u :: rest
      else u :: updateFirstUser sockId convId f rest

def userMsg (text : String) : Msg := ⟨text, .user, .text⟩

def botMsg (text : String) : Msg := ⟨text, .bot, .text⟩

/-- The `send-message` handler's effect on the store: persist the user's
message (`addMessageToUser`), then run `processConversationStep` on the
re-fetched record and write the resulting mutation back (`updateUser`).
Returns the updated store and the directives the flow engine issued. -/
def applyInput (store : List IUser) (sockId convId r : String) :
    List IUser × List Directive :=
  let store1 := updateFirstUser sockId convId
    (fun u => { u with messages := u.messages ++ [userMsg r] }) store
  match findUser store1 sockId convId with
  | none => (store1, [])
  | some u =>
      let out := processConversationStep u r
      (updateFirstUser sockId convId (fun _ => out.1) store1, out.2)

/-- How many notifier (e-mail) calls a directive list triggers when
dispatched: each `emailJob` calls its `send...Email` function exactly once. -/
def notifierCallCount (ds : List Directive) : Nat :=
  (ds.filter fun d => match d with | .emailJob _ => true | _ => false).length

/-- How many times the closing/summary outcome (`showConversationSummary`) is
scheduled by a directive list. -/
def summaryJobCount (ds : List Directive) : Nat :=
  (ds.filter fun d => match d with | .summaryJob _ => true | _ => false).length

/-! ### Rejection: the `else` branches of the step handlers -/

/-- The inputs each step's handler rejects: failed `validateName` /
`validateAge` / `validateEmail` at steps 1-3, and at an option step a value
that is none of the step's declared option values.  Steps with no handler
reject nothing (the `default` case accepts any input), and step 0 accepts any
input. -/
def rejectsInput (u : IUser) (r : String) : Bool :=
  if u.step = 0 then false
  else if u.step = 1 then !validateName r
  else if u.step = 2 then !validateAge r
  else if u.step = 3 then !validateEmail r
  else if u.step = 4 then !decide (r = "Study" ∨ r = "Work")
  else if u.step = 5 then !decide (r = "Yes" ∨ r = "No")
  else if u.step = 6 then !decide (r = "Upload Resume" ∨ r = "No Resume")
  else if u.step = 7 then !decide (r ∈ qualificationValues)
  else if u.step = 8 then !decide (r ∈ experienceValues)
  else if u.step = 9 then !decide (r = "Yes" ∨ r = "No")
  else if u.step = 10 then !decide (r = "Yes" ∨ r = "No")
  else if u.step = 11 then !decide (r = "Yes" ∨ r = "No")
  else if u.step = 22 then !decide (r ∈ ugMajorValues)
  else if u.step = 23 then !decide (r = "Yes" ∨ r = "No")
  else if u.step = 24 then !decide (r ∈ experienceYearsValues)
  else if u.step = 25 then !decide (r = "Yes" ∨ r = "No")
  else if u.step = 27 then !decide (r = "Yes" ∨ r = "No")
  else if u.step = 50 then !decide (r ∈ studyQualificationValues)
  else if u.step = 51 then !decide (r ∈ studyCountryValues)
  else if u.step = 52 then !decide (r ∈ studyLevelValues)
  else if u.step = 53 then !decide (r ∈ studyFieldValues)
  else if u.step = 54 then !decide (r ∈ studyBudgetValues)
  else if u.step = 55 then !decide (r ∈ studyStartTimeValues)
  else if u.step = 56 then !decide (r ∈ studyDurationValues)
  else if u.step = 58 then !decide (r = "Yes" ∨ r = "No")
  else false

/-- The re-prompt text each step's `else` branch sends. -/
def rejectionText (n : Nat) : String :=
  if n = 1 then "Please enter a valid name (at least 2 letters, letters and spaces only)"
  else if n = 2 then "Please enter a valid age (between 16-65 years)"
  else if n = 3 then "Please enter a valid email address (e.g., example@gmail.com)"
  else if n = 4 then "Please select either Study or Work"
  else if n = 7 then "Please select a qualification from the options"
  else if n = 8 then "Please select an experience level"
  else if n = 22 then "Please select a UG major from the options"
  else if n = 24 then "Please select an experience level"
  else if n = 50 then "Please select a qualification from the options"
  else if n = 51 then "Please select a country from the options"
  else if n = 52 then "Please select a study level from the options"
  else if n = 53 then "Please select a field of study from the options"
  else if n = 54 then "Please select a budget range from the options"
  else if n = 55 then "Please select a start time from the options"
  else if n = 56 then "Please select a duration from the options"
  else "Please select either Yes or No"

/-- What a rejected input produces: nothing at all at the resume step
(case 6 has no `else` branch), one re-prompt message everywhere else. -/
def rejectionDirectives (u : IUser) : List Directive :=
  if u.step = 6 then [] else [.botMessage (rejectionText u.step)]

/-- The step values the `switch` has a `case` for. -/
def handledStep (n : Nat) : Bool :=
  decide (n = 0) || decide (n = 1) || decide (n = 2) || decide (n = 3) ||
  decide (n = 4) || decide (n = 5) || decide (n = 6) || decide (n = 7) ||
  decide (n = 8) || decide (n = 9) || decide (n = 10) || decide (n = 11) ||
  decide (n = 22) || decide (n = 23) || decide (n = 24) || decide (n = 25) ||
  decide (n = 27) || decide (n = 50) || decide (n = 51) || decide (n = 52) ||
  decide (n = 53) || decide (n = 54) || decide (n = 55) || decide (n = 56) ||
  decide (n = 58)

/-- The collected answer fields of a user document (everything the step
handlers fill in from user input; flags, step, transcript and status are
not answers). -/
structure Answers where
  name : String
  age : String
  email : String
  purpose : String
  passport : String
  resume : Option String
  qualification : String
  ugMajor : String
  workExperience : String
  experienceYears : String
  germanLanguageUG : String
  examReadiness : String
  ugProgramContinue : String
  ugProgramStartTime : String
  experience : String
  interestedInCategories : String
  germanLanguage : String
  continueProgram : String
  programStartTime : String
  entryYear : String
  financialJobSupport : String
  studyCountry : String
  studyLevel : String
  studyField : String
  studyBudget : String
  studyStartTime : String
  studyDuration : String
  studyProgramContinue : String
deriving DecidableEq, Repr

def answersOf (u : IUser) : Answers :=
  ⟨u.name, u.age, u.email, u.purpose, u.passport, u.resume, u.qualification,
   u.ugMajor, u.workExperience, u.experienceYears, u.germanLanguageUG,
   u.examReadiness, u.ugProgramContinue, u.ugProgramStartTime, u.experience,
   u.interestedInCategories, u.germanLanguage, u.continueProgram,
   u.programStartTime, u.entryYear, u.financialJobSupport, u.studyCountry,
   u.studyLevel, u.studyField, u.studyBudget, u.studyStartTime,
   u.studyDuration, u.studyProgramContinue⟩

/-! ### The dispatcher: persistence and broadcast events

Every path of the source that emits a `new-message` event first awaits
`addMessageToUser` on the same message.  The dispatcher below realizes each
directive as the ordered event list that path performs; the claim about
ordering is stated over these traces. -/

/-- `${resume || 'Not provided'}`: JS `||` also replaces the empty string. -/
def jsOr (v : Option String) (dflt : String) : String :=
  match v with
  | none => dflt
  | some s => if s = "" then dflt else s

/-- The summary HTML of `showConversationSummary` (the presentational
wrapper `div`s, inline styles and template-literal indentation are dropped;
the displayed labels and field values are kept verbatim). -/
def summaryText (u : IUser) : String :=
  "📋 Summary of Your Information " ++
  "<strong>👤 Name:</strong> " ++ u.name ++ "<br>" ++
  "<strong>🎂 Age:</strong> " ++ u.age ++ "<br>" ++
  "<strong>📧 Email:</strong> " ++ u.email ++ "<br>" ++
  "<strong>🎯 Purpose:</strong> " ++ u.purpose ++ "<br>" ++
  (if u.purpose = "Study" then
    "<strong>🎓 Qualification:</strong> " ++ u.qualification ++ "<br>" ++
    "<strong>🌍 Study Country:</strong> " ++ u.studyCountry ++ "<br>" ++
    "<strong>🎒 Study Level:</strong> " ++ u.studyLevel ++ "<br>" ++
    "<strong>📚 Field of Study:</strong> " ++ u.studyField ++ "<br>" ++
    "<strong>💰 Budget:</strong> " ++ u.studyBudget ++ "<br>" ++
    "<strong>📅 Preferred Start:</strong> " ++ u.studyStartTime ++ "<br>" ++
    "<strong>⏰ Program Duration:</strong> " ++ u.studyDuration ++ "<br>"
  else
    "<strong>📘 Passport:</strong> " ++ u.passport ++ "<br>" ++
    "<strong>📄 Resume:</strong> " ++ jsOr u.resume "Not provided" ++ "<br>" ++
    "<strong>🎓 Qualification:</strong> " ++ u.qualification ++ "<br>" ++
    (if u.currentFlow.startsWith "ug_" then
      "<strong>🎯 UG Major:</strong> " ++ u.ugMajor ++ "<br>" ++
      "<strong>💼 Work Experience:</strong> " ++ u.workExperience ++ "<br>" ++
      (if u.experienceYears = "" then "" else
        "<strong>📅 Experience Years:</strong> " ++ u.experienceYears ++ "<br>") ++
      "<strong>🇩🇪 German Language & Exam Readiness:</strong> " ++ u.germanLanguageUG ++ "<br>" ++
      "<strong>📋 Continue UG Program:</strong> " ++ u.ugProgramContinue ++ "<br>" ++
      (if u.ugProgramStartTime = "" then "" else
        "<strong>⏰ UG Program Start:</strong> " ++ u.ugProgramStartTime ++ "<br>")
    else
      "<strong>💼 Experience:</strong> " ++ u.experience ++ "<br>" ++
      "<strong>📈 Interested in categories:</strong> " ++ u.interestedInCategories ++ "<br>" ++
      "<strong>🇩🇪 German language:</strong> " ++ u.germanLanguage ++ "<br>" ++
      "<strong>📋 Continue program:</strong> " ++ u.continueProgram ++ "<br>" ++
      (if u.programStartTime = "" then "" else
        "<strong>⏰ Program Start:</strong> " ++ u.programStartTime ++ "<br>")))

def summaryMsg (u : IUser) : Msg := ⟨summaryText u, .bot, .summary⟩

/-- The closing message `showConversationSummary` schedules after the summary. -/
def closingText (u : IUser) : String :=
  "🎉 Thank you " ++ u.name ++
  "! Your details have been sent to our team.<br><br>📞 For immediate assistance: <strong>+91 9003619777</strong><br><br>🌟 We're excited to help you achieve your dreams of " ++
  (if u.purpose = "Study" then "studying abroad" else "working abroad") ++ "!"

def closingMsg (u : IUser) : Msg := ⟨closingText u, .bot, .text⟩

/-- An observable action of the dispatcher, in the order performed. -/
inductive Event where
  | persist (m : Msg)
  | broadcast (m : Msg)
  | optionsShown (os : List ChatOption)
  | processing (isProcessing : Bool)
  | fileUploadRequested
  | notifierCall (k : EmailKind)
  | replay (ms : List Msg)
deriving DecidableEq, Repr

/-- Realize one directive as its event sequence.  `botMessage` is
`sendBotMessage`: `await addMessageToUser(...)` then `socket.emit('new-message')`;
`summaryJob` is `showConversationSummary`: append + emit the summary message,
then append + emit the closing message. -/
def realize : Directive → List Event
  | .botMessage t => [.persist (botMsg t), .broadcast (botMsg t)]
  | .showOptions os => [.optionsShown os]
  | .processingStatus b _ => [.processing b]
  | .triggerFileUpload => [.fileUploadRequested]
  | .emailJob k => [.notifierCall k]
  | .summaryJob u =>
      [.persist (summaryMsg u), .broadcast (summaryMsg u),
       .persist (closingMsg u), .broadcast (closingMsg u)]

def realizeAll (ds : List Directive) : List Event := ds.flatMap realize

/-- The `send-message` handler's event trace: `addMessageToUser` on the user
message, then (`if (saved)`) the `new-message` broadcast, then the flow
engine's directives. -/
def sendMessageTrace (u : IUser) (text : String) : List Event :=
  .persist (userMsg text) :: .broadcast (userMsg text) ::
    realizeAll (processConversationStep u text).2

def welcomeMsg : Msg :=
  ⟨"Hi welcome to PayanaOverseas! How can I assist you today?", .bot, .text⟩

def getStartedOptions : List ChatOption := [⟨"🚀 Get Started", "Get Started"⟩]

/-- The `join-conversation` handler's event trace: fetch-or-create, replay the
stored messages, and (for a fresh conversation) persist the welcome message
before (`if (saved)`) emitting it. -/
def joinTrace (store : List IUser) (convId sockId : String) : List Event :=
  .replay (getOrCreateUser store convId sockId).2.messages ::
    (if (getOrCreateUser store convId sockId).2.messages.isEmpty ∨
        (getOrCreateUser store convId sockId).2.step = 0 then
      [.persist welcomeMsg, .broadcast welcomeMsg, .optionsShown getStartedOptions]
    else [])

/-- Every broadcast of a message is preceded, in the same trace, by the
persistence of that same message. -/
def PersistedBeforeBroadcast (t : List Event) : Prop :=
  ∀ pre m post, t = pre ++ Event.broadcast m :: post → Event.persist m ∈ pre

/-! ### The claim-side reading of the age rule (C7) -/

/-- The claim's reading of an input that denotes an integer: an optional sign
followed by one or more decimal digits and nothing else. -/
def denotesInteger (s : String) : Option Int :=
  let sg := signSplit s.data
  if (!sg.2.isEmpty) && sg.2.all isAsciiDigit then
    some (if sg.1 then -(Int.ofNat (digitsValue 10 digitVal sg.2 0))
          else Int.ofNat (digitsValue 10 digitVal sg.2 0))
  else none

/-- The claim's acceptance condition: the input denotes an integer in [16, 65]. -/
def denotesIntegerInRange (s : String) : Bool :=
  match denotesInteger s with
  | none => false
  | some n => decide (16 ≤ n ∧ n ≤ 65)

/-! ### Helper lemmas -/

theorem isJsWs_eq_false_of_digit (c : Char) (h : isAsciiDigit c = true) :
    isJsWs c = false := by
  by_contra hw
  rw [Bool.not_eq_false] at hw
  unfold isJsWs at hw
  simp only [Bool.or_eq_true, decide_eq_true_eq] at hw
  rcases hw with ((((rfl | rfl) | rfl) | rfl) | rfl) | rfl <;>
    exact absurd h (by decide)

theorem takeWhile_all_eq {p : Char → Bool} {l : List Char} (h : l.all p = true) :
    l.takeWhile p = l := by
  induction l with
  | nil => rfl
  | cons a t ih =>
      simp only [List.all_cons, Bool.and_eq_true] at h
      rw [List.takeWhile_cons_of_pos h.1, ih h.2]

theorem hexPrefix_eq_false_of_digits :
    ∀ l : List Char, l.all isAsciiDigit = true → hexPrefix l = false := by
  intro l h
  match l with
  | [] => rfl
  | [a] => rfl
  | a :: c :: t =>
      simp only [List.all_cons, Bool.and_eq_true] at h
      have hx : c ≠ 'x' := fun hc => by rw [hc] at h; exact absurd h.2.1 (by decide)
      have hX : c ≠ 'X' := fun hc => by rw [hc] at h; exact absurd h.2.1 (by decide)
      unfold hexPrefix
      simp [hx, hX]

/-- A string that is exactly an optionally-signed decimal numeral parses under
`parseInt` to the numeral's value. -/
theorem jsParseInt_of_denotesInteger (s : String) (n : Int)
    (h : denotesInteger s = some n) : jsParseInt s = some n := by
  rcases s with ⟨l⟩
  unfold denotesInteger at h
  dsimp only at h
  by_cases hc : (!(signSplit l).2.isEmpty) && (signSplit l).2.all isAsciiDigit
  case neg => rw [if_neg hc] at h; exact absurd h (by simp)
  rw [if_pos hc] at h
  rw [Bool.and_eq_true, Bool.not_eq_true'] at hc
  obtain ⟨hne, hall⟩ := hc
  have hdrop : l.dropWhile isJsWs = l := by
    cases l with
    | nil => rfl
    | cons a t =>
        have hws : isJsWs a = false := by
          by_cases ha : a = '-'
          · subst ha; decide
          by_cases hb : a = '+'
          · subst hb; decide
          · have hs : signSplit (a :: t) = (false, a :: t) := by
              unfold signSplit; simp [ha, hb]
            rw [hs] at hall
            simp only [List.all_cons, Bool.and_eq_true] at hall
            exact isJsWs_eq_false_of_digit a hall.1
        rw [List.dropWhile_cons, hws]
        simp
  unfold jsParseInt
  dsimp only
  simp only [hdrop, hexPrefix_eq_false_of_digits _ hall, Bool.false_eq_true,
    if_false, takeWhile_all_eq hall, hne]
  exact h

/-! ### Dispatch lemmas: at step `k` the switch selects case `k` -/

theorem process_at_0 (u : IUser) (r : String) (h : u.step = 0) :
    processConversationStep u r = step0Handler u r := by
  simp [processConversationStep, h]

theorem process_at_1 (u : IUser) (r : String) (h : u.step = 1) :
    processConversationStep u r = step1Handler u r := by
  simp [processConversationStep, h]

theorem process_at_2 (u : IUser) (r : String) (h : u.step = 2) :
    processConversationStep u r = step2Handler u r := by
  simp [processConversationStep, h]

theorem process_at_3 (u : IUser) (r : String) (h : u.step = 3) :
    processConversationStep u r = step3Handler u r := by
  simp [processConversationStep, h]

theorem process_at_4 (u : IUser) (r : String) (h : u.step = 4) :
    processConversationStep u r = step4Handler u r := by
  simp [processConversationStep, h]

theorem process_at_5 (u : IUser) (r : String) (h : u.step = 5) :
    processConversationStep u r = step5Handler u r := by
  simp [processConversationStep, h]

theorem process_at_6 (u : IUser) (r : String) (h : u.step = 6) :
    processConversationStep u r = step6Handler u r := by
  simp [processConversationStep, h]

theorem process_at_7 (u : IUser) (r : String) (h : u.step = 7) :
    processConversationStep u r = step7Handler u r := by
  simp [processConversationStep, h]

theorem process_at_8 (u : IUser) (r : String) (h : u.step = 8) :
    processConversationStep u r = step8Handler u r := by
  simp [processConversationStep, h]

theorem process_at_9 (u : IUser) (r : String) (h : u.step = 9) :
    processConversationStep u r = step9Handler u r := by
  simp [processConversationStep, h]

theorem process_at_10 (u : IUser) (r : String) (h : u.step = 10) :
    processConversationStep u r = step10Handler u r := by
  simp [processConversationStep, h]

theorem process_at_11 (u : IUser) (r : String) (h : u.step = 11) :
    processConversationStep u r = step11Handler u r := by
  simp [processConversationStep, h]

theorem process_at_22 (u : IUser) (r : String) (h : u.step = 22) :
    processConversationStep u r = step22Handler u r := by
  simp [processConversationStep, h]

theorem process_at_23 (u : IUser) (r : String) (h : u.step = 23) :
    processConversationStep u r = step23Handler u r := by
  simp [processConversationStep, h]

theorem process_at_24 (u : IUser) (r : String) (h : u.step = 24) :
    processConversationStep u r = step24Handler u r := by
  simp [processConversationStep, h]

theorem process_at_25 (u : IUser) (r : String) (h : u.step = 25) :
    processConversationStep u r = step25Handler u r := by
  simp [processConversationStep, h]

theorem process_at_27 (u : IUser) (r : String) (h : u.step = 27) :
    processConversationStep u r = step27Handler u r := by
  simp [processConversationStep, h]

theorem process_at_50 (u : IUser) (r : String) (h : u.step = 50) :
    processConversationStep u r = step50Handler u r := by
  simp [processConversationStep, h]

theorem process_at_51 (u : IUser) (r : String) (h : u.step = 51) :
    processConversationStep u r = step51Handler u r := by
  simp [processConversationStep, h]

theorem process_at_52 (u : IUser) (r : String) (h : u.step = 52) :
    processConversationStep u r = step52Handler u r := by
  simp [processConversationStep, h]

theorem process_at_53 (u : IUser) (r : String) (h : u.step = 53) :
    processConversationStep u r = step53Handler u r := by
  simp [processConversationStep, h]

theorem process_at_54 (u : IUser) (r : String) (h : u.step = 54) :
    processConversationStep u r = step54Handler u r := by
  simp [processConversationStep, h]

theorem process_at_55 (u : IUser) (r : String) (h : u.step = 55) :
    processConversationStep u r = step55Handler u r := by
  simp [processConversationStep, h]

theorem process_at_56 (u : IUser) (r : String) (h : u.step = 56) :
    processConversationStep u r = step56Handler u r := by
  simp [processConversationStep, h]

theorem process_at_58 (u : IUser) (r : String) (h : u.step = 58) :
    processConversationStep u r = step58Handler u r := by
  simp [processConversationStep, h]

/-- At a step with no `case`, the switch falls to `default`. -/
theorem process_at_default (u : IUser) (r : String) (h : handledStep u.step = false) :
    processConversationStep u r = defaultHandler u r := by
  simp only [handledStep, Bool.or_eq_false_iff, decide_eq_false_iff_not] at h
  obtain ⟨⟨⟨⟨⟨⟨⟨⟨⟨⟨⟨⟨⟨⟨⟨⟨⟨⟨⟨⟨⟨⟨⟨⟨h0, h1⟩, h2⟩, h3⟩, h4⟩, h5⟩, h6⟩, h7⟩, h8⟩, h9⟩, h10⟩, h11⟩, h22⟩, h23⟩, h24⟩, h25⟩, h27⟩, h50⟩, h51⟩, h52⟩, h53⟩, h54⟩, h55⟩, h56⟩, h58⟩ := h
  simp [processConversationStep, h0, h1, h2, h3, h4, h5, h6, h7, h8, h9, h10, h11, h22, h23, h24, h25, h27, h50, h51, h52, h53, h54, h55, h56, h58]

/-! ### Per-handler frame facts -/

theorem status_0 (u : IUser) (r : String) :
    (step0Handler u r).1.status = u.status := rfl

theorem status_1 (u : IUser) (r : String) :
    (step1Handler u r).1.status = u.status := by
  unfold step1Handler
  split_ifs <;> rfl

theorem status_2 (u : IUser) (r : String) :
    (step2Handler u r).1.status = u.status := by
  unfold step2Handler
  split_ifs <;> rfl

theorem status_3 (u : IUser) (r : String) :
    (step3Handler u r).1.status = u.status := by
  unfold step3Handler
  split_ifs <;> rfl

theorem status_4 (u : IUser) (r : String) :
    (step4Handler u r).1.status = u.status := by
  unfold step4Handler
  split_ifs <;> rfl

theorem status_5 (u : IUser) (r : String) :
    (step5Handler u r).1.status = u.status := by
  unfold step5Handler
  split_ifs <;> rfl

theorem status_6 (u : IUser) (r : String) :
    (step6Handler u r).1.status = u.status := by
  unfold step6Handler
  split_ifs <;> rfl

theorem status_7 (u : IUser) (r : String) :
    (step7Handler u r).1.status = u.status := by
  unfold step7Handler
  split_ifs <;> rfl

theorem status_8 (u : IUser) (r : String) :
    (step8Handler u r).1.status = u.status := by
  unfold step8Handler
  split_ifs <;> rfl

theorem status_9 (u : IUser) (r : String) :
    (step9Handler u r).1.status = u.status := by
  unfold step9Handler
  split_ifs <;> rfl

theorem status_10 (u : IUser) (r : String) :
    (step10Handler u r).1.status = u.status := by
  unfold step10Handler
  split_ifs <;> rfl

theorem status_11 (u : IUser) (r : String) :
    (step11Handler u r).1.status = u.status := by
  unfold step11Handler
  split_ifs <;> rfl

theorem status_22 (u : IUser) (r : String) :
    (step22Handler u r).1.status = u.status := by
  unfold step22Handler
  split_ifs <;> rfl

theorem status_23 (u : IUser) (r : String) :
    (step23Handler u r).1.status = u.status := by
  unfold step23Handler
  split_ifs <;> rfl

theorem status_24 (u : IUser) (r : String) :
    (step24Handler u r).1.status = u.status := by
  unfold step24Handler
  split_ifs <;> rfl

theorem status_25 (u : IUser) (r : String) :
    (step25Handler u r).1.status = u.status := by
  unfold step25Handler
  split_ifs <;> rfl

theorem status_27 (u : IUser) (r : String) :
    (step27Handler u r).1.status = u.status := by
  unfold step27Handler
  split_ifs <;> rfl

theorem status_50 (u : IUser) (r : String) :
    (step50Handler u r).1.status = u.status := by
  unfold step50Handler
  split_ifs <;> rfl

theorem status_51 (u : IUser) (r : String) :
    (step51Handler u r).1.status = u.status := by
  unfold step51Handler
  split_ifs <;> rfl

theorem status_52 (u : IUser) (r : String) :
    (step52Handler u r).1.status = u.status := by
  unfold step52Handler
  split_ifs <;> rfl

theorem status_53 (u : IUser) (r : String) :
    (step53Handler u r).1.status = u.status := by
  unfold step53Handler
  split_ifs <;> rfl

theorem status_54 (u : IUser) (r : String) :
    (step54Handler u r).1.status = u.status := by
  unfold step54Handler
  split_ifs <;> rfl

theorem status_55 (u : IUser) (r : String) :
    (step55Handler u r).1.status = u.status := by
  unfold step55Handler
  split_ifs <;> rfl

theorem status_56 (u : IUser) (r : String) :
    (step56Handler u r).1.status = u.status := by
  unfold step56Handler
  split_ifs <;> rfl

theorem status_58 (u : IUser) (r : String) :
    (step58Handler u r).1.status = u.status := by
  unfold step58Handler
  split_ifs <;> rfl

theorem status_default (u : IUser) (r : String) :
    (defaultHandler u r).1.status = u.status := rfl

/-- No step handler ever writes the `status` field. -/
theorem status_invariant (u : IUser) (r : String) :
    (processConversationStep u r).1.status = u.status := by
  by_cases h0 : u.step = 0
  · rw [process_at_0 u r h0]; exact status_0 u r
  by_cases h1 : u.step = 1
  · rw [process_at_1 u r h1]; exact status_1 u r
  by_cases h2 : u.step = 2
  · rw [process_at_2 u r h2]; exact status_2 u r
  by_cases h3 : u.step = 3
  · rw [process_at_3 u r h3]; exact status_3 u r
  by_cases h4 : u.step = 4
  · rw [process_at_4 u r h4]; exact status_4 u r
  by_cases h5 : u.step = 5
  · rw [process_at_5 u r h5]; exact status_5 u r
  by_cases h6 : u.step = 6
  · rw [process_at_6 u r h6]; exact status_6 u r
  by_cases h7 : u.step = 7
  · rw [process_at_7 u r h7]; exact status_7 u r
  by_cases h8 : u.step = 8
  · rw [process_at_8 u r h8]; exact status_8 u r
  by_cases h9 : u.step = 9
  · rw [process_at_9 u r h9]; exact status_9 u r
  by_cases h10 : u.step = 10
  · rw [process_at_10 u r h10]; exact status_10 u r
  by_cases h11 : u.step = 11
  · rw [process_at_11 u r h11]; exact status_11 u r
  by_cases h22 : u.step = 22
  · rw [process_at_22 u r h22]; exact status_22 u r
  by_cases h23 : u.step = 23
  · rw [process_at_23 u r h23]; exact status_23 u r
  by_cases h24 : u.step = 24
  · rw [process_at_24 u r h24]; exact status_24 u r
  by_cases h25 : u.step = 25
  · rw [process_at_25 u r h25]; exact status_25 u r
  by_cases h27 : u.step = 27
  · rw [process_at_27 u r h27]; exact status_27 u r
  by_cases h50 : u.step = 50
  · rw [process_at_50 u r h50]; exact status_50 u r
  by_cases h51 : u.step = 51
  · rw [process_at_51 u r h51]; exact status_51 u r
  by_cases h52 : u.step = 52
  · rw [process_at_52 u r h52]; exact status_52 u r
  by_cases h53 : u.step = 53
  · rw [process_at_53 u r h53]; exact status_53 u r
  by_cases h54 : u.step = 54
  · rw [process_at_54 u r h54]; exact status_54 u r
  by_cases h55 : u.step = 55
  · rw [process_at_55 u r h55]; exact status_55 u r
  by_cases h56 : u.step = 56
  · rw [process_at_56 u r h56]; exact status_56 u r
  by_cases h58 : u.step = 58
  · rw [process_at_58 u r h58]; exact status_58 u r
  have hh : handledStep u.step = false := by
    simp [handledStep, h0, h1, h2, h3, h4, h5, h6, h7, h8, h9, h10, h11, h22, h23, h24, h25, h27, h50, h51, h52, h53, h54, h55, h56, h58]
  rw [process_at_default u r hh]
  exact status_default u r

/-- A rejected input leaves the user record unchanged and produces exactly the
step's re-prompt directives (none at the resume step). -/
theorem rejected_eval (u : IUser) (r : String) (h : rejectsInput u r = true) :
    processConversationStep u r = (u, rejectionDirectives u) := by
  by_cases h0 : u.step = 0
  · simp [rejectsInput, h0] at h
  by_cases h1 : u.step = 1
  · simp [rejectsInput, h1] at h
    rw [process_at_1 u r h1]
    simp [step1Handler, h, rejectionDirectives, rejectionText, h1]
  by_cases h2 : u.step = 2
  · simp [rejectsInput, h2] at h
    rw [process_at_2 u r h2]
    simp [step2Handler, h, rejectionDirectives, rejectionText, h2]
  by_cases h3 : u.step = 3
  · simp [rejectsInput, h3] at h
    rw [process_at_3 u r h3]
    simp [step3Handler, h, rejectionDirectives, rejectionText, h3]
  by_cases h4 : u.step = 4
  · simp [rejectsInput, h4] at h
    rw [process_at_4 u r h4]
    simp [step4Handler, h, rejectionDirectives, rejectionText, h4]
  by_cases h5 : u.step = 5
  · simp [rejectsInput, h5] at h
    rw [process_at_5 u r h5]
    simp [step5Handler, h, rejectionDirectives, rejectionText, h5]
  by_cases h6 : u.step = 6
  · simp [rejectsInput, h6] at h
    rw [process_at_6 u r h6]
    simp [step6Handler, h, rejectionDirectives, rejectionText, h6]
  by_cases h7 : u.step = 7
  · simp [rejectsInput, h7] at h
    rw [process_at_7 u r h7]
    simp [step7Handler, h, rejectionDirectives, rejectionText, h7]
  by_cases h8 : u.step = 8
  · simp [rejectsInput, h8] at h
    rw [process_at_8 u r h8]
    simp [step8Handler, h, rejectionDirectives, rejectionText, h8]
  by_cases h9 : u.step = 9
  · simp [rejectsInput, h9] at h
    rw [process_at_9 u r h9]
    simp [step9Handler, h, rejectionDirectives, rejectionText, h9]
  by_cases h10 : u.step = 10
  · simp [rejectsInput, h10] at h
    rw [process_at_10 u r h10]
    simp [step10Handler, h, rejectionDirectives, rejectionText, h10]
  by_cases h11 : u.step = 11
  · simp [rejectsInput, h11] at h
    rw [process_at_11 u r h11]
    simp [step11Handler, h, rejectionDirectives, rejectionText, h11]
  by_cases h22 : u.step = 22
  · simp [rejectsInput, h22] at h
    rw [process_at_22 u r h22]
    simp [step22Handler, h, rejectionDirectives, rejectionText, h22]
  by_cases h23 : u.step = 23
  · simp [rejectsInput, h23] at h
    rw [process_at_23 u r h23]
    simp [step23Handler, h, rejectionDirectives, rejectionText, h23]
  by_cases h24 : u.step = 24
  · simp [rejectsInput, h24] at h
    rw [process_at_24 u r h24]
    simp [step24Handler, h, rejectionDirectives, rejectionText, h24]
  by_cases h25 : u.step = 25
  · simp [rejectsInput, h25] at h
    rw [process_at_25 u r h25]
    simp [step25Handler, h, rejectionDirectives, rejectionText, h25]
  by_cases h27 : u.step = 27
  · simp [rejectsInput, h27] at h
    rw [process_at_27 u r h27]
    simp [step27Handler, h, rejectionDirectives, rejectionText, h27]
  by_cases h50 : u.step = 50
  · simp [rejectsInput, h50] at h
    rw [process_at_50 u r h50]
    simp [step50Handler, h, rejectionDirectives, rejectionText, h50]
  by_cases h51 : u.step = 51
  · simp [rejectsInput, h51] at h
    rw [process_at_51 u r h51]
    simp [step51Handler, h, rejectionDirectives, rejectionText, h51]
  by_cases h52 : u.step = 52
  · simp [rejectsInput, h52] at h
    rw [process_at_52 u r h52]
    simp [step52Handler, h, rejectionDirectives, rejectionText, h52]
  by_cases h53 : u.step = 53
  · simp [rejectsInput, h53] at h
    rw [process_at_53 u r h53]
    simp [step53Handler, h, rejectionDirectives, rejectionText, h53]
  by_cases h54 : u.step = 54
  · simp [rejectsInput, h54] at h
    rw [process_at_54 u r h54]
    simp [step54Handler, h, rejectionDirectives, rejectionText, h54]
  by_cases h55 : u.step = 55
  · simp [rejectsInput, h55] at h
    rw [process_at_55 u r h55]
    simp [step55Handler, h, rejectionDirectives, rejectionText, h55]
  by_cases h56 : u.step = 56
  · simp [rejectsInput, h56] at h
    rw [process_at_56 u r h56]
    simp [step56Handler, h, rejectionDirectives, rejectionText, h56]
  by_cases h58 : u.step = 58
  · simp [rejectsInput, h58] at h
    rw [process_at_58 u r h58]
    simp [step58Handler, h, rejectionDirectives, rejectionText, h58]
  simp [rejectsInput, h0, h1, h2, h3, h4, h5, h6, h7, h8, h9, h10, h11, h22, h23, h24, h25, h27, h50, h51, h52, h53, h54, h55, h56, h58] at h

/-- An input at a step with no `case` falls to the `default` handler, which
issues the closing message and schedules the summary, with no status guard. -/
theorem default_summary (u : IUser) (r : String) (h : handledStep u.step = false) :
    (processConversationStep u r).1 = u ∧
    (processConversationStep u r).2 =
      [.botMessage "Thank you for your interest in PayanaOverseas! Our team will contact you soon.",
       .summaryJob u] := by
  rw [process_at_default u r h]
  exact ⟨rfl, rfl⟩

/-- `getOrCreateUser` keeps every record already in the store. -/
theorem mem_getOrCreateUser (store : List IUser) (convId sockId : String)
    (u : IUser) (hu : u ∈ store) :
    u ∈ (getOrCreateUser store convId sockId).1 := by
  unfold getOrCreateUser
  cases h : findUser store sockId convId <;> simp [hu]

/-- `findOneAndUpdate` rewrites a record in place: the store keeps its length. -/
theorem length_updateFirstUser (sockId convId : String) (f : IUser → IUser) :
    ∀ store : List IUser,
      (updateFirstUser sockId convId f store).length = store.length := by
  intro store
  induction store with
  | nil => rfl
  | cons a t ih => unfold updateFirstUser; split_ifs <;> simp [ih]

theorem matchesKeys_freshUser (sockId convId : String) :
    matchesKeys sockId convId (freshUser sockId convId) = true := by
  simp [matchesKeys, freshUser]

/-- After inserting the fresh record, the `(socketId, conversationId)` lookup
finds it. -/
theorem findUser_after_create (store : List IUser) (sockId convId : String)
    (h : findUser store sockId convId = none) :
    findUser (store ++ [freshUser sockId convId]) sockId convId =
      some (freshUser sockId convId) := by
  unfold findUser at h ⊢
  rw [List.find?_append, h]
  simp [List.find?_cons, matchesKeys_freshUser]

/-! ### Ordering lemmas for the dispatcher traces -/

theorem pbb_nil : PersistedBeforeBroadcast [] := by
  intro pre m post h
  exact absurd (congrArg List.length h) (by simp; omega)

theorem pbb_cons_other (e : Event) (t : List Event)
    (he : ∀ m, e ≠ Event.broadcast m) (ht : PersistedBeforeBroadcast t) :
    PersistedBeforeBroadcast (e :: t) := by
  intro pre m post h
  cases pre with
  | nil =>
      rw [List.nil_append] at h
      injection h with h1 _
      exact absurd h1 (he m)
  | cons x pre' =>
      rw [List.cons_append] at h
      injection h with _ h2
      exact List.mem_cons_of_mem x (ht pre' m post h2)

theorem pbb_pair (m0 : Msg) (t : List Event) (ht : PersistedBeforeBroadcast t) :
    PersistedBeforeBroadcast (Event.persist m0 :: Event.broadcast m0 :: t) := by
  intro pre m post h
  rcases pre with _ | ⟨x, _ | ⟨y, pre'⟩⟩
  · rw [List.nil_append] at h
    injection h with h1 _
    exact absurd h1 (by intro hx; cases hx)
  · rw [List.cons_append, List.nil_append] at h
    injection h with h1 h2
    injection h2 with h2a _
    injection h2a with hm
    rw [← h1, hm]
    exact List.mem_singleton.mpr rfl
  · rw [List.cons_append, List.cons_append] at h
    injection h with _ h2
    injection h2 with _ h2b
    exact List.mem_cons_of_mem x
      (List.mem_cons_of_mem y (ht pre' m post h2b))

theorem pbb_realize_append (d : Directive) (t : List Event)
    (ht : PersistedBeforeBroadcast t) :
    PersistedBeforeBroadcast (realize d ++ t) := by
  cases d with
  | botMessage s => exact pbb_pair _ _ ht
  | showOptions os => exact pbb_cons_other _ _ (fun m h => Event.noConfusion h) ht
  | processingStatus b msg =>
      exact pbb_cons_other _ _ (fun m h => Event.noConfusion h) ht
  | triggerFileUpload =>
      exact pbb_cons_other _ _ (fun m h => Event.noConfusion h) ht
  | emailJob k => exact pbb_cons_other _ _ (fun m h => Event.noConfusion h) ht
  | summaryJob v => exact pbb_pair _ _ (pbb_pair _ _ ht)

theorem pbb_realizeAll (ds : List Directive) :
    PersistedBeforeBroadcast (realizeAll ds) := by
  induction ds with
  | nil => exact pbb_nil
  | cons d ds ih =>
      have hsplit : realizeAll (d :: ds) = realize d ++ realizeAll ds := by
        simp [realizeAll]
      rw [hsplit]
      exact pbb_realize_append d _ ih

/-- Lowercasing a character never yields an ASCII uppercase letter. -/
theorem isAsciiUpper_jsLowerChar (c : Char) : isAsciiUpper (jsLowerChar c) = false := by
  unfold jsLowerChar
  cases hf : lowerTable.find? (fun p => p.1 == c) with
  | some p =>
      have hp : p ∈ lowerTable := List.mem_of_find?_eq_some hf
      have hlow : ∀ q ∈ lowerTable, isAsciiUpper q.2 = false := by decide
      exact hlow p hp
  | none =>
      have hall := List.find?_eq_none.mp hf
      unfold isAsciiUpper
      simp only [decide_eq_false_iff_not]
      intro hmem
      obtain ⟨q, hq, hqc⟩ := List.mem_map.mp hmem
      exact hall q hq (by simp [hqc])

/-! ### Concrete fixtures used by the claim instances -/

/-- A work-flow session sitting at the German-language checkpoint (step 10). -/
def raceUser : IUser :=
  { freshUser "s1" "conv1" with
      step := 10, name := "Asha", age := "24", email := "asha@example.com",
      purpose := "Work", passport := "Yes", resume := some "No resume",
      qualification := "12th Completed", experience := "1-2yr",
      interestedInCategories := "Yes", currentFlow := "standard" }

/-- A work-flow session that declined at step 11 and now sits at the terminal
unhandled step 21. -/
def closedUser : IUser :=
  { freshUser "s9" "conv9" with
      step := 21, name := "Ravi", age := "30", email := "ravi@example.com",
      purpose := "Work", passport := "No", continueProgram := "No",
      currentFlow := "work" }

/-- A session at the resume step (step 6). -/
def resumeStepUser : IUser :=
  { freshUser "s6" "conv6" with
      step := 6, passport := "Yes", currentFlow := "work" }

/-- A session at the name step (step 1). -/
def nameStepUser : IUser := { freshUser "s2" "conv2" with step := 1 }

/-- A session at the purpose step (step 4). -/
def purposeStepUser : IUser := { freshUser "s4" "conv4" with step := 4 }

/-- A session at the qualification step of the work flow (step 7). -/
def workQualUser : IUser :=
  { freshUser "s7" "conv7" with
      step := 7, purpose := "Work", resume := some "No resume",
      currentFlow := "work" }

/-- A Dentist-major session at the UG work-experience step (step 23). -/
def dentistUser : IUser :=
  { freshUser "s23" "conv23" with
      step := 23, ugMajor := "Dentist", qualification := "UG Completed",
      currentFlow := "ug_dentist" }

/-- A Nurses-major session at the UG experience-years step (step 24). -/
def nursesUser : IUser :=
  { freshUser "s24" "conv24" with
      step := 24, ugMajor := "Nurses", qualification := "UG Completed",
      workExperience := "Yes", currentFlow := "ug_nurses" }

/-- A session at the e-mail step (step 3). -/
def emailStepUser : IUser :=
  { freshUser "s3" "conv3" with
      step := 3, name := "Foo", age := "20" }

/-- A connection used by the trace witness. -/
def traceUser : IUser := freshUser "s0" "conv0"

/-- The store after connection `sockA` joins conversation `conv`. -/
def joinStoreA : List IUser := (getOrCreateUser [] "conv" "sockA").1

/-- ... after `sockA` submits its first input (step 0 accepts anything and
advances to step 1). -/
def joinStoreB : List IUser := (applyInput joinStoreA "sockA" "conv" "Get Started").1

/-- ... after a second connection `sockB` joins the same conversation. -/
def joinStoreC : List IUser := (getOrCreateUser joinStoreB "conv" "sockB").1

/-! ### The claims -/

/-- C1: the claim says a checkpoint's notifier fires at most once — in
particular that submitting the German-language step (10) twice before the
first notifier call resolves yields exactly one notifier call, and that a
trigger for a checkpoint whose flag is already true is skipped.  Evaluating
the code at that failing input: case 10 leaves `step = 10` until the e-mail
job resolves, consults neither `emailSent` nor `isProcessingEmail`, and so a
double submission schedules two notifier calls (and a session whose
`emailSent` flag is already true still schedules one). -/
theorem c1_double_submit_two_notifier_calls :
    (processConversationStep raceUser "Yes").1.step = 10 ∧
    notifierCallCount (processConversationStep raceUser "Yes").2 +
      notifierCallCount
        (processConversationStep (processConversationStep raceUser "Yes").1 "Yes").2 = 2 ∧
    notifierCallCount
      (processConversationStep { raceUser with emailSent := true } "Yes").2 = 1 := by
  decide

/-- C2: an input the current step's validation rejects (bad name at step 1,
bad age at step 2, bad e-mail at step 3, or a value that is not one of the
step's declared options) leaves the step and every collected answer field
unchanged. -/
theorem c2_no_mutation_on_rejection (u : IUser) (r : String)
    (h : rejectsInput u r = true) :
    (processConversationStep u r).1.step = u.step ∧
    answersOf (processConversationStep u r).1 = answersOf u := by
  rw [rejected_eval u r h]
  exact ⟨rfl, rfl⟩

theorem c2_witness :
    (processConversationStep nameStepUser "John 123").1.step = nameStepUser.step ∧
    answersOf (processConversationStep nameStepUser "John 123").1 =
      answersOf nameStepUser :=
  c2_no_mutation_on_rejection nameStepUser "John 123" (by decide)

/-- C3 counterexample: sessions are keyed by the `(socketId, conversationId)`
pair, so after connection `sockA` joins conversation `conv` and advances to
step 1, a join by a second connection `sockB` creates a second, fresh record
for the same conversation at step 0: the store then holds two divergent
records for one `sessionId`, and the joining connection sees step 0, not the
step the session had reached. -/
theorem c3_two_divergent_records :
    (joinStoreC.filter (fun u => u.conversationId == "conv")).map (fun u => u.step)
      = [1, 0] ∧
    (getOrCreateUser joinStoreB "conv" "sockB").2.step = 0 ∧
    (getOrCreateUser joinStoreB "conv" "sockA").2.step = 1 := by
  decide

/-- C3 amended: joining is idempotent per connection — the same
`(socketId, sessionId)` pair joining twice returns the identical record (same
step, same transcript, no reset to 0) and leaves the store unchanged; but
records are keyed by the pair, so distinct connections joining one
`sessionId` obtain separate records. -/
theorem c3_join_idempotent_per_connection (store : List IUser)
    (convId sockId : String) :
    getOrCreateUser (getOrCreateUser store convId sockId).1 convId sockId =
      getOrCreateUser store convId sockId := by
  cases h : findUser store sockId convId with
  | some u =>
      have h1 : getOrCreateUser store convId sockId = (store, u) := by
        unfold getOrCreateUser
        rw [h]
      rw [h1]
      exact h1
  | none =>
      have h1 : getOrCreateUser store convId sockId =
          (store ++ [freshUser sockId convId], freshUser sockId convId) := by
        unfold getOrCreateUser
        rw [h]
      have h2 : getOrCreateUser (store ++ [freshUser sockId convId]) convId sockId =
          (store ++ [freshUser sockId convId], freshUser sockId convId) := by
        unfold getOrCreateUser
        rw [findUser_after_create store sockId convId h]
      rw [h1]
      exact h2

/-- C4: in every handler path, a message is appended to the persisted
transcript strictly before the corresponding `new-message` broadcast:
the `send-message` handler, the join handler's welcome path, and all three
e-mail resolution callbacks (whose directives realize the summary paths as
well) produce traces in which every broadcast is preceded by the persist of
the same message. -/
theorem c4_persist_before_broadcast :
    (∀ u text, PersistedBeforeBroadcast (sendMessageTrace u text)) ∧
    (∀ store convId sockId, PersistedBeforeBroadcast (joinTrace store convId sockId)) ∧
    (∀ ok u, PersistedBeforeBroadcast (realizeAll (germanEmailResolve ok u).2)) ∧
    (∀ ok u, PersistedBeforeBroadcast (realizeAll (ugEmailResolve ok u).2)) ∧
    (∀ ok u, PersistedBeforeBroadcast (realizeAll (studyEmailResolve ok u).2)) := by
  refine ⟨fun u text => pbb_pair _ _ (pbb_realizeAll _),
    fun store convId sockId => ?_,
    fun ok u => pbb_realizeAll _, fun ok u => pbb_realizeAll _,
    fun ok u => pbb_realizeAll _⟩
  unfold joinTrace
  apply pbb_cons_other _ _ (fun m h => Event.noConfusion h)
  split_ifs
  · exact pbb_pair _ _ (pbb_cons_other _ _ (fun m h => Event.noConfusion h) pbb_nil)
  · exact pbb_nil

theorem c4_witness :
    Event.persist (userMsg "hi") ∈ [Event.persist (userMsg "hi")] :=
  c4_persist_before_broadcast.1 traceUser "hi" [Event.persist (userMsg "hi")]
    (userMsg "hi") (realizeAll (processConversationStep traceUser "hi").2) rfl

/-- C5 counterexample: at the terminal condition (unhandled step 21) the
summary fires, but `status` stays "active" — no code ever flips it to
"closed" — and a second input at the same step fires the summary again, so
the closing outcome is not guarded and not at-most-once. -/
theorem c5_summary_unguarded_cex :
    summaryJobCount (processConversationStep closedUser "ok").2 = 1 ∧
    (processConversationStep closedUser "ok").1.status = "active" ∧
    ((processConversationStep closedUser "ok").1.status = "closed" → False) ∧
    summaryJobCount
      (processConversationStep (processConversationStep closedUser "ok").1 "ok").2 = 1 := by
  decide

/-- C5 amended: a session record is never deleted (joins only add records and
`findOneAndUpdate` rewrites in place), and reaching the terminal condition
fires the closing/summary outcome — but the `status` field is never written
(it stays whatever it was, never flipping to "closed"), and nothing guards
the summary from firing again on each further input at an unhandled step. -/
theorem c5_terminal_unguarded_amended :
    (∀ u r, (processConversationStep u r).1.status = u.status) ∧
    (∀ store convId sockId u, u ∈ store → u ∈ (getOrCreateUser store convId sockId).1) ∧
    (∀ sockId convId f store,
        (updateFirstUser sockId convId f store).length = store.length) ∧
    (∀ u r, handledStep u.step = false →
        (processConversationStep u r).1 = u ∧
        (processConversationStep u r).2 =
          [.botMessage "Thank you for your interest in PayanaOverseas! Our team will contact you soon.",
           .summaryJob u]) :=
  ⟨status_invariant, mem_getOrCreateUser, length_updateFirstUser, default_summary⟩

theorem c5_witness :
    closedUser ∈ (getOrCreateUser [closedUser] "conv9" "s9").1 ∧
    (processConversationStep closedUser "ok").2 =
      [.botMessage "Thank you for your interest in PayanaOverseas! Our team will contact you soon.",
       .summaryJob closedUser] :=
  ⟨c5_terminal_unguarded_amended.2.1 [closedUser] "conv9" "s9" closedUser (by simp),
   (c5_terminal_unguarded_amended.2.2.2 closedUser "ok" (by decide)).2⟩

/-- C6: at the work-flow qualification step (7), "UG Completed" moves the
session to the UG-major sub-branch entry step 22 and emits the UG-major
options; "12th Completed" and "PG Completed" move it to the generic
work-experience step 8; any other input leaves the record unchanged. -/
theorem c6_step7_branching (u : IUser) (h : u.step = 7) :
    (processConversationStep u "UG Completed").1.step = 22 ∧
    (processConversationStep u "UG Completed").2 =
      [.botMessage "What is your UG major?", .showOptions ugMajorOptions] ∧
    (processConversationStep u "12th Completed").1.step = 8 ∧
    (processConversationStep u "PG Completed").1.step = 8 ∧
    ∀ r, r ∉ qualificationValues → (processConversationStep u r).1 = u := by
  refine ⟨?_, ?_, ?_, ?_, fun r hr => ?_⟩ <;>
    rw [process_at_7 u _ h]
  · simp [step7Handler, qualificationValues]
  · simp [step7Handler, qualificationValues]
  · simp [step7Handler, qualificationValues]
  · simp [step7Handler, qualificationValues]
  · simp [step7Handler, hr]

theorem c6_witness :
    (processConversationStep workQualUser "UG Completed").1.step = 22 ∧
    (processConversationStep workQualUser "UG Completed").2 =
      [.botMessage "What is your UG major?", .showOptions ugMajorOptions] ∧
    (processConversationStep workQualUser "12th Completed").1.step = 8 ∧
    (processConversationStep workQualUser "Maybe").1 = workQualUser :=
  have h := c6_step7_branching workQualUser rfl
  ⟨h.1, h.2.1, h.2.2.1, h.2.2.2.2 "Maybe" (by decide)⟩

/-- C7 counterexample: `validateAge` uses JS `parseInt`, which accepts any
string with a parsable integer prefix: "18abc" does not denote an integer yet
is accepted. -/
theorem c7_prefix_accepted_cex :
    validateAge "18abc" = true ∧ denotesIntegerInRange "18abc" = false := by
  decide

/-- C7 amended: the validator accepts a string iff JS `parseInt` extracts
from it a leading integer (after optional whitespace and sign, decimal or
`0x` hex) whose value lies in [16, 65]; in particular every string that is
exactly an optionally-signed decimal integer in [16, 65] is accepted, and
every string with no parsable integer prefix is rejected — but strings with
trailing garbage after a valid prefix are accepted too. -/
theorem c7_age_parse_characterization (s : String) (n : Int) :
    (denotesInteger s = some n → (validateAge s = true ↔ 16 ≤ n ∧ n ≤ 65)) ∧
    (jsParseInt s = some n → (validateAge s = true ↔ 16 ≤ n ∧ n ≤ 65)) ∧
    (jsParseInt s = none → validateAge s = false) := by
  refine ⟨?_, ?_, ?_⟩
  · intro h
    have hj := jsParseInt_of_denotesInteger s n h
    unfold validateAge
    rw [hj]
    simp
  · intro h
    unfold validateAge
    rw [h]
    simp
  · intro h
    unfold validateAge
    rw [h]

theorem c7_witness : validateAge "20" = true :=
  ((c7_age_parse_characterization "20" 20).1 (by decide)).mpr (by decide)

/-- C8 counterexample: the resume step (6) has no `else` branch, so an input
that is none of its declared options is rejected with *no* re-prompt message
and no directives at all, contradicting "exactly one re-prompt message". -/
theorem c8_step6_silent_cex :
    rejectsInput resumeStepUser "hello" = true ∧
    (processConversationStep resumeStepUser "hello").2 = [] ∧
    (processConversationStep resumeStepUser "hello").1 = resumeStepUser := by
  decide

/-- C8 amended: a rejected input never mutates the record and produces no
side-effect directives beyond the re-prompt; at every step except the resume
step (6) that is exactly one re-prompt message, while step 6 silently ignores
the input (no message at all). -/
theorem c8_rejection_reprompt (u : IUser) (r : String)
    (h : rejectsInput u r = true) :
    (processConversationStep u r).1 = u ∧
    (u.step = 6 → (processConversationStep u r).2 = []) ∧
    (u.step ≠ 6 →
      (processConversationStep u r).2 = [Directive.botMessage (rejectionText u.step)]) := by
  rw [rejected_eval u r h]
  refine ⟨rfl, fun h6 => ?_, fun h6 => ?_⟩
  · simp [rejectionDirectives, h6]
  · simp [rejectionDirectives, h6]

theorem c8_witness :
    (processConversationStep purposeStepUser "maybe").1 = purposeStepUser ∧
    (processConversationStep purposeStepUser "maybe").2 =
      [Directive.botMessage (rejectionText purposeStepUser.step)] :=
  have h := c8_rejection_reprompt purposeStepUser "maybe" (by decide)
  ⟨h.1, h.2.2 (by decide)⟩

/-- C9: in the UG sub-flow the German-language question (reached from the
work-experience step 23 on "No" and from the experience-years step 24 on any
declared option) always moves the session to the same step 25; its text
carries the extra FSP/KP exam-readiness clause exactly when the recorded
`ugMajor` is "Dentist" and is the plain question otherwise. -/
theorem c9_dentist_clause (u v : IUser) (r : String) (hu : u.step = 23)
    (hv : v.step = 24) (hr : r ∈ experienceYearsValues) :
    (processConversationStep u "No").1.step = 25 ∧
    (processConversationStep u "No").2 =
      [.botMessage (germanQuestionUG u.ugMajor), .showOptions yesNoOptions] ∧
    (processConversationStep v r).1.step = 25 ∧
    (processConversationStep v r).2 =
      [.botMessage (germanQuestionUG v.ugMajor), .showOptions yesNoOptions] ∧
    germanQuestionUG "Dentist" =
      "Are you willing to learn German language and ready to clear FSP and KP exams?" ∧
    (∀ m, m ≠ "Dentist" →
      germanQuestionUG m = "Are you willing to learn German language?") := by
  refine ⟨?_, ?_, ?_, ?_, by simp [germanQuestionUG], fun m hm => by simp [germanQuestionUG, hm]⟩
  · rw [process_at_23 u "No" hu]; simp [step23Handler]
  · rw [process_at_23 u "No" hu]; simp [step23Handler]
  · rw [process_at_24 v r hv]; simp [step24Handler, hr]
  · rw [process_at_24 v r hv]; simp [step24Handler, hr]

theorem c9_witness :
    (processConversationStep dentistUser "No").1.step = 25 ∧
    (processConversationStep dentistUser "No").2 =
      [.botMessage (germanQuestionUG dentistUser.ugMajor), .showOptions yesNoOptions] ∧
    (processConversationStep nursesUser "1-2yr").1.step = 25 ∧
    germanQuestionUG "Dentist" =
      "Are you willing to learn German language and ready to clear FSP and KP exams?" ∧
    germanQuestionUG "Nurses" = "Are you willing to learn German language?" :=
  have h := c9_dentist_clause dentistUser nursesUser "1-2yr" rfl rfl (by decide)
  ⟨h.1, h.2.1, h.2.2.1, h.2.2.2.2.1, h.2.2.2.2.2 "Nurses" (by decide)⟩

/-- C10: an input accepted by the e-mail validator at step 3 is stored
lowercased (`response.toLowerCase()`), so the stored e-mail contains no ASCII
uppercase character. -/
theorem c10_email_lowercased (u : IUser) (r : String) (h3 : u.step = 3)
    (hv : validateEmail r = true) :
    (processConversationStep u r).1.email = jsToLower r ∧
    ∀ c ∈ ((processConversationStep u r).1.email).data, isAsciiUpper c = false := by
  rw [process_at_3 u r h3]
  unfold step3Handler
  rw [if_pos hv]
  refine ⟨rfl, fun c hc => ?_⟩
  obtain ⟨a, _, rfl⟩ := List.mem_map.mp hc
  exact isAsciiUpper_jsLowerChar a

theorem c10_witness :
    (processConversationStep emailStepUser "Foo@Bar.Com").1.email =
      jsToLower "Foo@Bar.Com" :=
  (c10_email_lowercased emailStepUser "Foo@Bar.Com" rfl (by decide)).1

end Payana
